import Mathlib

/-!
Shallow embedding of the `nes_level` 6502 emulator core
(`src/rom.rs`, `src/mem.rs`, `src/cpu.rs`).

Machine integers (`u8`, `u16`) are modelled as `Nat` with explicit
`% 256` / `% 65536` truncation where the Rust code truncates, and
checked arithmetic (modelled with `Option` / error results) where the
Rust code uses plain `+` / `-` (which panic on overflow under the
default debug profile).  Explicit `wrapping_add` / `wrapping_sub` in
the source are modelled with modular arithmetic.  Fallible operations
(slice indexing out of bounds, explicit `panic!`, overflowing checked
arithmetic) return `Option` / an error value.
-/

namespace Nes

/-- iNES header, from `src/rom.rs` (`INESHeader`).  All fields are byte
values except `magic`, which is the 4-byte magic word. -/
structure INESHeader where
  magic : Nat
  size_prg : Nat
  size_chr : Nat
  flags_6 : Nat
  flags_7 : Nat
  size_prg_ram : Nat
  flags_9 : Nat
  flags_10 : Nat
deriving Repr

/-- Cartridge image, from `src/rom.rs` (`ROM`): header plus PRG and CHR
byte vectors. -/
structure ROM where
  header : INESHeader
  prg : List Nat
  chr : List Nat
deriving Repr

/-- `ROM::loadb` from `src/rom.rs`:
if `size_prg == 1 && addr >= 0xC000` the address is first lowered by
`0x4000`, then `prg[(addr as usize) - 0x8000]` is read.  The `usize`
subtraction underflows (panics) when the adjusted address is below
`0x8000`, and the vector indexing panics when the index is out of
bounds; both panic paths are `none`. -/
def ROM.loadb (r : ROM) (addr : Nat) : Option Nat :=
  let addr := if r.header.size_prg = 1 ∧ 0xC000 ≤ addr then addr - 0x4000 else addr
  if addr < 0x8000 then none
  else r.prg[addr - 0x8000]?

/-- 2KB internal RAM, from `src/mem.rs` (`RAM`): a `[u8; 0x800]` array,
modelled as a function from indices to byte values. -/
structure RAM where
  data : Nat → Nat

/-- `RAM::loadb` from `src/mem.rs`: `self.data[addr as usize]`; array
indexing out of bounds panics (`none`). -/
def RAM.loadb (r : RAM) (addr : Nat) : Option Nat :=
  if addr < 0x800 then some (r.data addr) else none

/-- `RAM::storeb` from `src/mem.rs`: `self.data[addr as usize] = val`;
out-of-bounds indexing panics (`none`). -/
def RAM.storeb (r : RAM) (addr val : Nat) : Option RAM :=
  if addr < 0x800 then some ⟨fun i => if i = addr then val else r.data i⟩ else none

/-- `RAM::new` from `src/mem.rs`: all 0x800 bytes zeroed. -/
def RAM.new : RAM := ⟨fun _ => 0⟩

/-- Memory bus, from `src/mem.rs` (`Memory`): RAM plus the cartridge. -/
structure Memory where
  ram : RAM
  rom : ROM

/-- `Memory::from_rom` from `src/mem.rs`. -/
def Memory.from_rom (rom : ROM) : Memory :=
  { ram := RAM.new, rom := rom }

/-- `Memory::loadb` from `src/mem.rs` (`impl Addressable for Memory`):
RAM mirrored through `addr & 0x7ff` below `0x2000`, stub regions
reading `0` up to `0x8000`, and the cartridge for the rest. -/
def Memory.loadb (m : Memory) (addr : Nat) : Option Nat :=
  if addr < 0x2000 then m.ram.loadb (addr &&& 0x7ff)
  else if 0x2000 ≤ addr ∧ addr < 0x4000 then some 0
  else if 0x4000 ≤ addr ∧ addr < 0x4020 then some 0
  else if 0x4020 ≤ addr ∧ addr < 0x6000 then some 0
  else if 0x6000 ≤ addr ∧ addr < 0x8000 then some 0
  else m.rom.loadb addr

/-- `Memory::storeb` from `src/mem.rs`: RAM stores are mirrored through
`addr & 0x7ff`; every other region's store arm has an empty body (the
`self.rom.storeb` call is commented out in the source), so the write is
silently discarded. -/
def Memory.storeb (m : Memory) (addr val : Nat) : Option Memory :=
  if addr < 0x2000 then
    match m.ram.storeb (addr &&& 0x7ff) val with
    | some r => some { m with ram := r }
    | none => none
  else if 0x2000 ≤ addr ∧ addr < 0x4000 then some m
  else if 0x4000 ≤ addr ∧ addr < 0x4020 then some m
  else if 0x4020 ≤ addr ∧ addr < 0x6000 then some m
  else if 0x6000 ≤ addr ∧ addr < 0x8000 then some m
  else some m

/-- `Addressable::loadw` default method from `src/mem.rs`:
`loadb(addr) | loadb(addr + 1) << 8`.  The `u16` addition `addr + 1`
overflows (panics) for `addr = 0xFFFF`. -/
def Memory.loadw (m : Memory) (addr : Nat) : Option Nat :=
  match m.loadb addr with
  | none => none
  | some lo =>
    if addr + 1 ≤ 0xFFFF then
      match m.loadb (addr + 1) with
      | none => none
      | some hi => some (lo ||| (hi <<< 8))
    else none

-- Flag bit constants, from `src/cpu.rs`.
def CARRY_FLAG : Nat := 1
def ZERO_FLAG : Nat := 2
def INT_FLAG : Nat := 4
def DEC_FLAG : Nat := 8
def S1_FLAG : Nat := 16
def S2_FLAG : Nat := 32
def OVERFLOW_FLAG : Nat := 64
def NEG_FLAG : Nat := 128

/-- Reset vector address, from `src/cpu.rs` (`RESET_VECTOR`). -/
def RESET_VECTOR : Nat := 0xFFFC

/-- Register file, from `src/cpu.rs` (`Registers`). -/
structure Registers where
  a : Nat
  x : Nat
  y : Nat
  s : Nat
  flags : Nat
  pc : Nat
deriving Repr

/-- `Registers::new` from `src/cpu.rs`: `Default` zeroes every field. -/
def Registers.new : Registers :=
  { a := 0, x := 0, y := 0, s := 0, flags := 0, pc := 0 }

/-- CPU state, from `src/cpu.rs` (`CPU`). -/
structure CPU where
  regs : Registers
  memory : Memory

/-- A Rust `panic!` escaping the emulator, carrying the CPU state at the
moment of the panic: an unmapped opcode (the `_` arm of
`emulate_cycle`'s match), a memory access that panics (out-of-bounds
slice index, or address arithmetic inside a load), checked integer
over/underflow at the CPU level, or a store through
`ImmediateAddressingMode`. -/
inductive Panic where
  | illegalOpcode (op : Nat) (c : CPU)
  | memFault (c : CPU)
  | arith (c : CPU)
  | storeImmediate (c : CPU)

/-- `CPU::loadb_move` from `src/cpu.rs`: read a byte at the PC, then
increment the PC (`self.regs.pc += 1` is a checked `u16` addition). -/
def CPU.loadb_move (c : CPU) : Except Panic (Nat × CPU) :=
  match c.memory.loadb c.regs.pc with
  | none => .error (.memFault c)
  | some val =>
    if c.regs.pc + 1 ≤ 0xFFFF then
      .ok (val, { c with regs := { c.regs with pc := c.regs.pc + 1 } })
    else .error (.arith c)

/-- `CPU::loadw_move` from `src/cpu.rs`: read a word at the PC, then
increment the PC by 2 (checked `u16` addition). -/
def CPU.loadw_move (c : CPU) : Except Panic (Nat × CPU) :=
  match c.memory.loadw c.regs.pc with
  | none => .error (.memFault c)
  | some val =>
    if c.regs.pc + 2 ≤ 0xFFFF then
      .ok (val, { c with regs := { c.regs with pc := c.regs.pc + 2 } })
    else .error (.arith c)

/-- `CPU::get_flag` from `src/cpu.rs`: the source tests
`self.regs.flags & flag == 1` (not `!= 0`), which is kept as written. -/
def CPU.get_flag (c : CPU) (flag : Nat) : Bool :=
  c.regs.flags &&& flag = 1

/-- `CPU::set_flag` from `src/cpu.rs`: `flags |= flag` when setting,
`flags &= !flag` when clearing (`!flag` on `u8` is `0xFF ^ flag`). -/
def CPU.set_flag (c : CPU) (flag : Nat) (value : Bool) : CPU :=
  if value then
    { c with regs := { c.regs with flags := c.regs.flags ||| flag } }
  else
    { c with regs := { c.regs with flags := c.regs.flags &&& (0xFF ^^^ flag) } }

/-- The closed set of addressing-mode strategies from `src/cpu.rs`
(`AccumulatorAddressingMode` … `ZeroPageYAddressingMode`); the `WB`
variants are the write-back modes used by the in-place shifts. -/
inductive AM where
  | accumulator
  | immediate
  | absolute
  | absoluteWB
  | absoluteX
  | absoluteXWB
  | absoluteY
  | zeroPage
  | zeroPageWB
  | zeroPageX
  | zeroPageXWB
  | zeroPageY

/-- The `load` side of each `AddressingMode` impl in `src/cpu.rs`.
Notably `AbsoluteWBAddressingMode::load` reads a single byte at the PC
(`cpu.memory.loadb(cpu.regs.pc) as u16`) as the address — not a word —
and does not advance the PC; `AbsoluteXWBAddressingMode::load` does the
same and then adds X.  The indexed modes add the index register with a
checked `u16` addition (only the absolute ones can overflow). -/
def AM.load : AM → CPU → Except Panic (Nat × CPU)
  | .accumulator, c => .ok (c.regs.a, c)
  | .immediate, c => c.loadb_move
  | .absolute, c =>
    match c.loadw_move with
    | .error p => .error p
    | .ok (addr, c) =>
      match c.memory.loadb addr with
      | none => .error (.memFault c)
      | some v => .ok (v, c)
  | .absoluteWB, c =>
    match c.memory.loadb c.regs.pc with
    | none => .error (.memFault c)
    | some addr =>
      match c.memory.loadb addr with
      | none => .error (.memFault c)
      | some v => .ok (v, c)
  | .absoluteX, c =>
    match c.loadw_move with
    | .error p => .error p
    | .ok (addr, c) =>
      if addr + c.regs.x ≤ 0xFFFF then
        match c.memory.loadb (addr + c.regs.x) with
        | none => .error (.memFault c)
        | some v => .ok (v, c)
      else .error (.arith c)
  | .absoluteXWB, c =>
    match c.memory.loadb c.regs.pc with
    | none => .error (.memFault c)
    | some addr =>
      match c.memory.loadb (addr + c.regs.x) with
      | none => .error (.memFault c)
      | some v => .ok (v, c)
  | .absoluteY, c =>
    match c.loadw_move with
    | .error p => .error p
    | .ok (addr, c) =>
      if addr + c.regs.y ≤ 0xFFFF then
        match c.memory.loadb (addr + c.regs.y) with
        | none => .error (.memFault c)
        | some v => .ok (v, c)
      else .error (.arith c)
  | .zeroPage, c =>
    match c.loadb_move with
    | .error p => .error p
    | .ok (addr, c) =>
      match c.memory.loadb addr with
      | none => .error (.memFault c)
      | some v => .ok (v, c)
  | .zeroPageWB, c =>
    match c.memory.loadb c.regs.pc with
    | none => .error (.memFault c)
    | some addr =>
      match c.memory.loadb addr with
      | none => .error (.memFault c)
      | some v => .ok (v, c)
  | .zeroPageX, c =>
    match c.loadb_move with
    | .error p => .error p
    | .ok (addr, c) =>
      match c.memory.loadb (addr + c.regs.x) with
      | none => .error (.memFault c)
      | some v => .ok (v, c)
  | .zeroPageXWB, c =>
    match c.memory.loadb c.regs.pc with
    | none => .error (.memFault c)
    | some addr =>
      match c.memory.loadb (addr + c.regs.x) with
      | none => .error (.memFault c)
      | some v => .ok (v, c)
  | .zeroPageY, c =>
    match c.loadb_move with
    | .error p => .error p
    | .ok (addr, c) =>
      match c.memory.loadb (addr + c.regs.y) with
      | none => .error (.memFault c)
      | some v => .ok (v, c)

/-- The `store` side of each `AddressingMode` impl in `src/cpu.rs`.
`ImmediateAddressingMode::store` is `panic!`; every `WB` store is
identical to the corresponding plain store (it re-fetches the operand
from the instruction stream with `loadw_move` / `loadb_move`). -/
def AM.store : AM → CPU → Nat → Except Panic CPU
  | .accumulator, c, val => .ok { c with regs := { c.regs with a := val } }
  | .immediate, c, _ => .error (.storeImmediate c)
  | .absolute, c, val =>
    match c.loadw_move with
    | .error p => .error p
    | .ok (addr, c) =>
      match c.memory.storeb addr val with
      | none => .error (.memFault c)
      | some m => .ok { c with memory := m }
  | .absoluteWB, c, val =>
    match c.loadw_move with
    | .error p => .error p
    | .ok (addr, c) =>
      match c.memory.storeb addr val with
      | none => .error (.memFault c)
      | some m => .ok { c with memory := m }
  | .absoluteX, c, val =>
    match c.loadw_move with
    | .error p => .error p
    | .ok (addr, c) =>
      if addr + c.regs.x ≤ 0xFFFF then
        match c.memory.storeb (addr + c.regs.x) val with
        | none => .error (.memFault c)
        | some m => .ok { c with memory := m }
      else .error (.arith c)
  | .absoluteXWB, c, val =>
    match c.loadw_move with
    | .error p => .error p
    | .ok (addr, c) =>
      if addr + c.regs.x ≤ 0xFFFF then
        match c.memory.storeb (addr + c.regs.x) val with
        | none => .error (.memFault c)
        | some m => .ok { c with memory := m }
      else .error (.arith c)
  | .absoluteY, c, val =>
    match c.loadw_move with
    | .error p => .error p
    | .ok (addr, c) =>
      if addr + c.regs.y ≤ 0xFFFF then
        match c.memory.storeb (addr + c.regs.y) val with
        | none => .error (.memFault c)
        | some m => .ok { c with memory := m }
      else .error (.arith c)
  | .zeroPage, c, val =>
    match c.loadb_move with
    | .error p => .error p
    | .ok (addr, c) =>
      match c.memory.storeb addr val with
      | none => .error (.memFault c)
      | some m => .ok { c with memory := m }
  | .zeroPageWB, c, val =>
    match c.loadb_move with
    | .error p => .error p
    | .ok (addr, c) =>
      match c.memory.storeb addr val with
      | none => .error (.memFault c)
      | some m => .ok { c with memory := m }
  | .zeroPageX, c, val =>
    match c.loadb_move with
    | .error p => .error p
    | .ok (addr, c) =>
      match c.memory.storeb (addr + c.regs.x) val with
      | none => .error (.memFault c)
      | some m => .ok { c with memory := m }
  | .zeroPageXWB, c, val =>
    match c.loadb_move with
    | .error p => .error p
    | .ok (addr, c) =>
      match c.memory.storeb (addr + c.regs.x) val with
      | none => .error (.memFault c)
      | some m => .ok { c with memory := m }
  | .zeroPageY, c, val =>
    match c.loadb_move with
    | .error p => .error p
    | .ok (addr, c) =>
      match c.memory.storeb (addr + c.regs.y) val with
      | none => .error (.memFault c)
      | some m => .ok { c with memory := m }

/-- `CPU::ora` from `src/cpu.rs`: `self.regs.a |= val`. -/
def ora (am : AM) (c : CPU) : Except Panic CPU :=
  match am.load c with
  | .error p => .error p
  | .ok (val, c) => .ok { c with regs := { c.regs with a := c.regs.a ||| val } }

/-- `CPU::eor` from `src/cpu.rs`: `self.regs.a ^= val`. -/
def eor (am : AM) (c : CPU) : Except Panic CPU :=
  match am.load c with
  | .error p => .error p
  | .ok (val, c) => .ok { c with regs := { c.regs with a := c.regs.a ^^^ val } }

/-- `CPU::and` from `src/cpu.rs`: `self.regs.a &= val`. -/
def and (am : AM) (c : CPU) : Except Panic CPU :=
  match am.load c with
  | .error p => .error p
  | .ok (val, c) => .ok { c with regs := { c.regs with a := c.regs.a &&& val } }

/-- `CPU::asl` from `src/cpu.rs`: shift left (a `u8` shift truncates
modulo 256 and does not panic), carry-out from bit 7, write back. -/
def asl (am : AM) (c : CPU) : Except Panic CPU :=
  match am.load c with
  | .error p => .error p
  | .ok (val, c) =>
    let top_bit := val &&& 0x80 ≠ 0
    let val := (val <<< 1) % 256
    let c := c.set_flag CARRY_FLAG top_bit
    am.store c val

/-- `CPU::rol` from `src/cpu.rs`: shift left, fold the old carry into
bit 0, carry-out from bit 7, write back. -/
def rol (am : AM) (c : CPU) : Except Panic CPU :=
  match am.load c with
  | .error p => .error p
  | .ok (val, c) =>
    let top_bit := val &&& 0x80 ≠ 0
    let val := (val <<< 1) % 256
    let val := val ||| (if c.get_flag CARRY_FLAG then 1 else 0)
    let c := c.set_flag CARRY_FLAG top_bit
    am.store c val

/-- `CPU::lsr` from `src/cpu.rs`: shift right, carry-out from bit 0,
write back. -/
def lsr (am : AM) (c : CPU) : Except Panic CPU :=
  match am.load c with
  | .error p => .error p
  | .ok (val, c) =>
    let low_bit := val &&& 0x1 ≠ 0
    let val := val >>> 1
    let c := c.set_flag CARRY_FLAG low_bit
    am.store c val

/-- `CPU::ror` from `src/cpu.rs`: shift right, fold the old carry into
bit 7, carry-out from bit 0, write back. -/
def ror (am : AM) (c : CPU) : Except Panic CPU :=
  match am.load c with
  | .error p => .error p
  | .ok (val, c) =>
    let low_bit := val &&& 0x1 ≠ 0
    let val := val >>> 1
    let val := val ||| ((if c.get_flag CARRY_FLAG then 1 else 0) <<< 7)
    let c := c.set_flag CARRY_FLAG low_bit
    am.store c val

/-- `CPU::adc` from `src/cpu.rs`: `u16` accumulate of A + v (+ carry-in);
the sum is at most `0x1FF` so the checked additions cannot overflow;
carry-out is bit 8; `A = result as u8`. -/
def adc (am : AM) (c : CPU) : Except Panic CPU :=
  let result := c.regs.a
  match am.load c with
  | .error p => .error p
  | .ok (val, c) =>
    let result := result + val
    let result := if c.get_flag CARRY_FLAG then result + 1 else result
    let c := c.set_flag CARRY_FLAG (result &&& 0x100 ≠ 0)
    .ok { c with regs := { c.regs with a := result % 256 } }

/-- `CPU::sbc` from `src/cpu.rs`: `result -= val as u16` and the
conditional `result -= 1` are checked `u16` subtractions, which panic on
underflow (the source does not use `wrapping_sub` here); then carry is
set from bit 8 of the result and `A = result as u8`. -/
def sbc (am : AM) (c : CPU) : Except Panic CPU :=
  let result := c.regs.a
  match am.load c with
  | .error p => .error p
  | .ok (val, c) =>
    if val ≤ result then
      let result := result - val
      if c.get_flag CARRY_FLAG then
        if 1 ≤ result then
          let result := result - 1
          let c := c.set_flag CARRY_FLAG (result &&& 0x100 ≠ 0)
          .ok { c with regs := { c.regs with a := result % 256 } }
        else .error (.arith c)
      else
        let c := c.set_flag CARRY_FLAG (result &&& 0x100 ≠ 0)
        .ok { c with regs := { c.regs with a := result % 256 } }
    else .error (.arith c)

/-- `CPU::lda` from `src/cpu.rs`: `self.regs.a = val`. -/
def lda (am : AM) (c : CPU) : Except Panic CPU :=
  match am.load c with
  | .error p => .error p
  | .ok (val, c) => .ok { c with regs := { c.regs with a := val } }

/-- `CPU::ldx` from `src/cpu.rs`: `self.regs.x = val`. -/
def ldx (am : AM) (c : CPU) : Except Panic CPU :=
  match am.load c with
  | .error p => .error p
  | .ok (val, c) => .ok { c with regs := { c.regs with x := val } }

/-- `CPU::ldy` from `src/cpu.rs`: `self.regs.y = val`. -/
def ldy (am : AM) (c : CPU) : Except Panic CPU :=
  match am.load c with
  | .error p => .error p
  | .ok (val, c) => .ok { c with regs := { c.regs with y := val } }

/-- `CPU::nop` from `src/cpu.rs`. -/
def nop (c : CPU) : Except Panic CPU := .ok c

/-- `CPU::sta` from `src/cpu.rs`: store A through the mode. -/
def sta (am : AM) (c : CPU) : Except Panic CPU :=
  am.store c c.regs.a

/-- `CPU::stx` from `src/cpu.rs`: store X through the mode. -/
def stx (am : AM) (c : CPU) : Except Panic CPU :=
  am.store c c.regs.x

/-- `CPU::sty` from `src/cpu.rs`: store Y through the mode. -/
def sty (am : AM) (c : CPU) : Except Panic CPU :=
  am.store c c.regs.y

/-- `CPU::compare` from `src/cpu.rs`:
`result = (first as u16).wrapping_sub(second as u16)` (both arguments
are `u8` values), `Carry = (result & 0x100) != 0`, `Zero = result == 0`.
Neither register operand is written. -/
def compare (c : CPU) (first second : Nat) : CPU :=
  let result := (first + 0x10000 - second) % 0x10000
  let c := c.set_flag CARRY_FLAG (result &&& 0x100 ≠ 0)
  c.set_flag ZERO_FLAG (result = 0)

/-- `CPU::cmp` from `src/cpu.rs`: compare A with the operand. -/
def cmp (am : AM) (c : CPU) : Except Panic CPU :=
  match am.load c with
  | .error p => .error p
  | .ok (val, c) => .ok (compare c c.regs.a val)

/-- `CPU::cpx` from `src/cpu.rs`: compare X with the operand. -/
def cpx (am : AM) (c : CPU) : Except Panic CPU :=
  match am.load c with
  | .error p => .error p
  | .ok (val, c) => .ok (compare c c.regs.x val)

/-- `CPU::cpy` from `src/cpu.rs`: compare Y with the operand. -/
def cpy (am : AM) (c : CPU) : Except Panic CPU :=
  match am.load c with
  | .error p => .error p
  | .ok (val, c) => .ok (compare c c.regs.y val)

/-- `CPU::bpl` from `src/cpu.rs`: consume the offset byte, then add it
to the PC (checked, zero-extended `u8`) when `flags & NEG_FLAG == 0`. -/
def bpl (c : CPU) : Except Panic CPU :=
  match AM.load .immediate c with
  | .error p => .error p
  | .ok (offset, c) =>
    if c.regs.flags &&& NEG_FLAG = 0 then
      if c.regs.pc + offset ≤ 0xFFFF then
        .ok { c with regs := { c.regs with pc := c.regs.pc + offset } }
      else .error (.arith c)
    else .ok c

/-- `CPU::bmi` from `src/cpu.rs`: branch when `flags & NEG_FLAG != 0`. -/
def bmi (c : CPU) : Except Panic CPU :=
  match AM.load .immediate c with
  | .error p => .error p
  | .ok (offset, c) =>
    if c.regs.flags &&& NEG_FLAG ≠ 0 then
      if c.regs.pc + offset ≤ 0xFFFF then
        .ok { c with regs := { c.regs with pc := c.regs.pc + offset } }
      else .error (.arith c)
    else .ok c

/-- `CPU::bvc` from `src/cpu.rs`: branch when `flags & OVERFLOW_FLAG == 0`. -/
def bvc (c : CPU) : Except Panic CPU :=
  match AM.load .immediate c with
  | .error p => .error p
  | .ok (offset, c) =>
    if c.regs.flags &&& OVERFLOW_FLAG = 0 then
      if c.regs.pc + offset ≤ 0xFFFF then
        .ok { c with regs := { c.regs with pc := c.regs.pc + offset } }
      else .error (.arith c)
    else .ok c

/-- `CPU::bvs` from `src/cpu.rs`: branch when `flags & OVERFLOW_FLAG != 0`. -/
def bvs (c : CPU) : Except Panic CPU :=
  match AM.load .immediate c with
  | .error p => .error p
  | .ok (offset, c) =>
    if c.regs.flags &&& OVERFLOW_FLAG ≠ 0 then
      if c.regs.pc + offset ≤ 0xFFFF then
        .ok { c with regs := { c.regs with pc := c.regs.pc + offset } }
      else .error (.arith c)
    else .ok c

/-- `CPU::bcc` from `src/cpu.rs`: branch when `flags & CARRY_FLAG == 0`. -/
def bcc (c : CPU) : Except Panic CPU :=
  match AM.load .immediate c with
  | .error p => .error p
  | .ok (offset, c) =>
    if c.regs.flags &&& CARRY_FLAG = 0 then
      if c.regs.pc + offset ≤ 0xFFFF then
        .ok { c with regs := { c.regs with pc := c.regs.pc + offset } }
      else .error (.arith c)
    else .ok c

/-- `CPU::bcs` from `src/cpu.rs`: branch when `flags & CARRY_FLAG != 0`. -/
def bcs (c : CPU) : Except Panic CPU :=
  match AM.load .immediate c with
  | .error p => .error p
  | .ok (offset, c) =>
    if c.regs.flags &&& CARRY_FLAG ≠ 0 then
      if c.regs.pc + offset ≤ 0xFFFF then
        .ok { c with regs := { c.regs with pc := c.regs.pc + offset } }
      else .error (.arith c)
    else .ok c

/-- `CPU::bne` from `src/cpu.rs`: branch when `flags & ZERO_FLAG == 0`. -/
def bne (c : CPU) : Except Panic CPU :=
  match AM.load .immediate c with
  | .error p => .error p
  | .ok (offset, c) =>
    if c.regs.flags &&& ZERO_FLAG = 0 then
      if c.regs.pc + offset ≤ 0xFFFF then
        .ok { c with regs := { c.regs with pc := c.regs.pc + offset } }
      else .error (.arith c)
    else .ok c

/-- `CPU::beq` from `src/cpu.rs`: branch when `flags & ZERO_FLAG != 0`. -/
def beq (c : CPU) : Except Panic CPU :=
  match AM.load .immediate c with
  | .error p => .error p
  | .ok (offset, c) =>
    if c.regs.flags &&& ZERO_FLAG ≠ 0 then
      if c.regs.pc + offset ≤ 0xFFFF then
        .ok { c with regs := { c.regs with pc := c.regs.pc + offset } }
      else .error (.arith c)
    else .ok c

/-- `CPU::dex` from `src/cpu.rs`: the source computes
`self.regs.x.wrapping_sub(1)` and discards the result without assigning
it back, so the register is left unchanged. -/
def dex (c : CPU) : Except Panic CPU :=
  let _ := (c.regs.x + 256 - 1) % 256
  .ok c

/-- `CPU::dey` from `src/cpu.rs`: computes `self.regs.y.wrapping_sub(1)`
and discards the result. -/
def dey (c : CPU) : Except Panic CPU :=
  let _ := (c.regs.y + 256 - 1) % 256
  .ok c

/-- `CPU::inx` from `src/cpu.rs`: computes `self.regs.x.wrapping_add(1)`
and discards the result. -/
def inx (c : CPU) : Except Panic CPU :=
  let _ := (c.regs.x + 1) % 256
  .ok c

/-- `CPU::iny` from `src/cpu.rs`: computes `self.regs.y.wrapping_add(1)`
and discards the result. -/
def iny (c : CPU) : Except Panic CPU :=
  let _ := (c.regs.y + 1) % 256
  .ok c

/-- `CPU::jmp` from `src/cpu.rs`: `PC = fetch_word()`. -/
def jmp (c : CPU) : Except Panic CPU :=
  match c.loadw_move with
  | .error p => .error p
  | .ok (addr, c) => .ok { c with regs := { c.regs with pc := addr } }

/-- The opcode dispatch from `CPU::emulate_cycle` in `src/cpu.rs`,
arm for arm (including the source's `0xa4`/`0xb4` arms, which call
`lda` rather than `ldy`).  The `_` arm is the
`panic!("Illegal/unimplemented opcode …")`. -/
def execOpcode (opcode : Nat) (c : CPU) : Except Panic CPU :=
  match opcode with
  | 0x69 => adc .immediate c
  | 0x65 => adc .zeroPage c
  | 0x75 => adc .zeroPageX c
  | 0x6d => adc .absolute c
  | 0x7d => adc .absoluteX c
  | 0x79 => adc .absoluteY c
  | 0xe9 => sbc .immediate c
  | 0xe5 => sbc .zeroPage c
  | 0xf5 => sbc .zeroPageX c
  | 0xed => sbc .absolute c
  | 0xfd => sbc .absoluteX c
  | 0xf9 => sbc .absoluteY c
  | 0xc9 => cmp .immediate c
  | 0xc5 => cmp .zeroPage c
  | 0xd5 => cmp .zeroPageX c
  | 0xcd => cmp .absolute c
  | 0xdd => cmp .absoluteX c
  | 0xd9 => cmp .absoluteY c
  | 0xe0 => cpx .immediate c
  | 0xe4 => cpx .zeroPage c
  | 0xec => cpx .absolute c
  | 0xc0 => cpy .immediate c
  | 0xc4 => cpy .zeroPage c
  | 0xcc => cpy .absolute c
  | 0xa9 => lda .immediate c
  | 0xa5 => lda .zeroPage c
  | 0xb5 => lda .zeroPageX c
  | 0xad => lda .absolute c
  | 0xbd => lda .absoluteX c
  | 0xb9 => lda .absoluteY c
  | 0xa2 => ldx .immediate c
  | 0xa6 => ldx .zeroPage c
  | 0xb6 => ldx .zeroPageY c
  | 0xae => ldx .absolute c
  | 0xbe => ldx .absoluteY c
  | 0xa0 => ldy .immediate c
  | 0xa4 => lda .zeroPage c
  | 0xb4 => lda .zeroPageX c
  | 0xac => ldy .absolute c
  | 0xbc => ldy .absoluteX c
  | 0x85 => sta .zeroPage c
  | 0x95 => sta .zeroPageX c
  | 0x8d => sta .absolute c
  | 0x9d => sta .absoluteX c
  | 0x99 => sta .absoluteY c
  | 0x86 => stx .zeroPage c
  | 0x96 => stx .zeroPageX c
  | 0x8e => stx .absolute c
  | 0x84 => sty .zeroPage c
  | 0x94 => sty .zeroPageX c
  | 0x8c => sty .absolute c
  | 0xea => nop c
  | 0x29 => and .immediate c
  | 0x25 => and .zeroPage c
  | 0x35 => and .zeroPageX c
  | 0x2d => and .absolute c
  | 0x3d => and .absoluteX c
  | 0x39 => and .absoluteY c
  | 0x09 => ora .immediate c
  | 0x05 => ora .zeroPage c
  | 0x15 => ora .zeroPageX c
  | 0x0d => ora .absolute c
  | 0x1d => ora .absoluteX c
  | 0x19 => ora .absoluteY c
  | 0x49 => eor .immediate c
  | 0x45 => eor .zeroPage c
  | 0x55 => eor .zeroPageX c
  | 0x4d => eor .absolute c
  | 0x5d => eor .absoluteX c
  | 0x59 => eor .absoluteY c
  | 0x0a => asl .accumulator c
  | 0x06 => asl .zeroPageWB c
  | 0x16 => asl .zeroPageXWB c
  | 0x0e => asl .absoluteWB c
  | 0x1e => asl .absoluteXWB c
  | 0x2a => rol .accumulator c
  | 0x26 => rol .zeroPageWB c
  | 0x36 => rol .zeroPageXWB c
  | 0x2e => rol .absoluteWB c
  | 0x3e => rol .absoluteXWB c
  | 0x4a => lsr .accumulator c
  | 0x46 => lsr .zeroPageWB c
  | 0x56 => lsr .zeroPageXWB c
  | 0x4e => lsr .absoluteWB c
  | 0x5e => lsr .absoluteXWB c
  | 0x6a => ror .accumulator c
  | 0x66 => ror .zeroPageWB c
  | 0x76 => ror .zeroPageXWB c
  | 0x6e => ror .absoluteWB c
  | 0x7e => ror .absoluteXWB c
  | 0x10 => bpl c
  | 0x30 => bmi c
  | 0x50 => bvc c
  | 0x70 => bvs c
  | 0x90 => bcc c
  | 0xb0 => bcs c
  | 0xd0 => bne c
  | 0xf0 => beq c
  | 0x4c => jmp c
  | 0xca => dex c
  | 0x88 => dey c
  | 0xe8 => inx c
  | 0xc8 => iny c
  | _ => .error (.illegalOpcode opcode c)

/-- `CPU::emulate_cycle` from `src/cpu.rs`: fetch the opcode byte at
the PC (advancing it), then dispatch. -/
def emulate_cycle (c : CPU) : Except Panic CPU :=
  match c.loadb_move with
  | .error p => .error p
  | .ok (opcode, c) => execOpcode opcode c

/-- `CPU::reset` from `src/cpu.rs`: reload the PC from the little-endian
word at the reset vector; no other register is touched. -/
def CPU.reset (c : CPU) : Except Panic CPU :=
  match c.memory.loadw RESET_VECTOR with
  | none => .error (.memFault c)
  | some w => .ok { c with regs := { c.regs with pc := w } }

/-- `CPU::new` from `src/cpu.rs`, after the ROM has been read from the
file: zeroed registers and a bus built by `Memory::from_rom`. -/
def CPU.new (rom : ROM) : CPU :=
  { regs := Registers.new, memory := Memory.from_rom rom }

/-- The CPU states reachable from construction via `reset()` and
successful `emulate_cycle()` calls (a panic tears the emulation down,
so it yields no successor state). -/
inductive Reachable : CPU → Prop where
  | new (rom : ROM) : Reachable (CPU.new rom)
  | reset {c c' : CPU} : Reachable c → c.reset = .ok c' → Reachable c'
  | step {c c' : CPU} : Reachable c → emulate_cycle c = .ok c' → Reachable c'

/-! Concrete fixtures used by the claim theorems. -/

/-- A well-formed header for a one-bank cartridge. -/
def header1 : INESHeader :=
  { magic := 0x1A53454E, size_prg := 1, size_chr := 1, flags_6 := 0,
    flags_7 := 0, size_prg_ram := 0, flags_9 := 0, flags_10 := 0 }

/-- A loaded one-bank cartridge whose PRG is all zero bytes
(`prg_banks = 1`, so `prg` holds `16384` bytes). -/
def rom1 : ROM :=
  { header := header1, prg := List.replicate 16384 0, chr := List.replicate 8192 0 }

/-- A loaded cartridge with `prg_banks = 0`: the header announces zero
PRG banks, so `from_file` builds an empty `prg` vector. -/
def rom0 : ROM :=
  { header := { header1 with size_prg := 0, size_chr := 0 }, prg := [], chr := [] }

/-- RAM holding the given association list of byte values, zero
elsewhere. -/
def ramOf (l : List (Nat × Nat)) : RAM :=
  ⟨fun a => ((l.find? (fun p => p.1 = a)).map Prod.snd).getD 0⟩

/-- CMP fixture: `A = 0x10`, instruction stream `C9 10`
(CMP immediate with operand `0x10`). -/
def cpu_c1 : CPU :=
  { regs := { Registers.new with a := 0x10 },
    memory := { ram := ramOf [(0, 0xC9), (1, 0x10)], rom := rom1 } }

/-- INX fixture: `X = 5`, `Y = 7`, instruction stream `E8`. -/
def cpu_c2_inx : CPU :=
  { regs := { Registers.new with x := 5, y := 7 },
    memory := { ram := ramOf [(0, 0xE8)], rom := rom1 } }

/-- INY fixture: `X = 5`, `Y = 7`, instruction stream `C8`. -/
def cpu_c2_iny : CPU :=
  { regs := { Registers.new with x := 5, y := 7 },
    memory := { ram := ramOf [(0, 0xC8)], rom := rom1 } }

/-- DEX fixture: `X = 5`, `Y = 7`, instruction stream `CA`. -/
def cpu_c2_dex : CPU :=
  { regs := { Registers.new with x := 5, y := 7 },
    memory := { ram := ramOf [(0, 0xCA)], rom := rom1 } }

/-- DEY fixture: `X = 5`, `Y = 7`, instruction stream `88`. -/
def cpu_c2_dey : CPU :=
  { regs := { Registers.new with x := 5, y := 7 },
    memory := { ram := ramOf [(0, 0x88)], rom := rom1 } }

/-- ASL-absolute fixture: instruction stream `0E 80 01`
(ASL on the absolute address `0x0180`), with `0x01` stored at
`0x0080` and `0x00` stored at `0x0180`. -/
def cpu_c3 : CPU :=
  { regs := Registers.new,
    memory := { ram := ramOf [(0, 0x0E), (1, 0x80), (2, 0x01), (0x80, 0x01)], rom := rom1 } }

/-- SBC fixture: `A = 0`, carry clear, instruction stream `E9 01`
(SBC immediate with operand `1`). -/
def cpu_c4_sbc : CPU :=
  { regs := Registers.new,
    memory := { ram := ramOf [(0, 0xE9), (1, 0x01)], rom := rom1 } }

/-- LDY-zero-page fixture: instruction stream `A4 05` (opcode `0xA4`
with zero-page operand `5`) and `0x42` stored at address `5`;
`A = Y = 0`. -/
def cpu_c9 : CPU :=
  { regs := Registers.new,
    memory := { ram := ramOf [(0, 0xA4), (1, 0x05), (5, 0x42)], rom := rom1 } }

/-- Illegal-opcode fixture: instruction stream `FF` at `PC = 0`. -/
def cpu_c5 : CPU :=
  { regs := Registers.new, memory := { ram := ramOf [(0, 0xFF)], rom := rom1 } }

/-- The opcode bytes that have an arm in `emulate_cycle`'s match, in
source order. -/
def mappedOpcodes : List Nat :=
  [0x69, 0x65, 0x75, 0x6d, 0x7d, 0x79,
   0xe9, 0xe5, 0xf5, 0xed, 0xfd, 0xf9,
   0xc9, 0xc5, 0xd5, 0xcd, 0xdd, 0xd9,
   0xe0, 0xe4, 0xec,
   0xc0, 0xc4, 0xcc,
   0xa9, 0xa5, 0xb5, 0xad, 0xbd, 0xb9,
   0xa2, 0xa6, 0xb6, 0xae, 0xbe,
   0xa0, 0xa4, 0xb4, 0xac, 0xbc,
   0x85, 0x95, 0x8d, 0x9d, 0x99,
   0x86, 0x96, 0x8e,
   0x84, 0x94, 0x8c,
   0xea,
   0x29, 0x25, 0x35, 0x2d, 0x3d, 0x39,
   0x09, 0x05, 0x15, 0x0d, 0x1d, 0x19,
   0x49, 0x45, 0x55, 0x4d, 0x5d, 0x59,
   0x0a, 0x06, 0x16, 0x0e, 0x1e,
   0x2a, 0x26, 0x36, 0x2e, 0x3e,
   0x4a, 0x46, 0x56, 0x4e, 0x5e,
   0x6a, 0x66, 0x76, 0x6e, 0x7e,
   0x10, 0x30, 0x50, 0x70, 0x90, 0xb0, 0xd0, 0xf0,
   0x4c,
   0xca, 0x88, 0xe8, 0xc8]

/-- Whether an opcode byte has a table entry (an arm other than the
`panic!` default). -/
def hasEntry (op : Nat) : Bool := mappedOpcodes.contains op

/-- The behaviour of a branch instruction that consumes its offset byte
but does not take the branch. -/
def branch_not_taken (c : CPU) : Except Panic CPU :=
  match AM.load .immediate c with
  | .error p => .error p
  | .ok (_, c) => .ok c

/-- The behaviour of a branch instruction that consumes its offset byte
and adds it (checked, zero-extended) to the PC. -/
def branch_taken (c : CPU) : Except Panic CPU :=
  match AM.load .immediate c with
  | .error p => .error p
  | .ok (offset, c) =>
    if c.regs.pc + offset ≤ 0xFFFF then
      .ok { c with regs := { c.regs with pc := c.regs.pc + offset } }
    else .error (.arith c)

/-- Every in-range PRG read of the all-zero one-bank cartridge yields 0. -/
theorem rom1_loadb {addr : Nat} (h1 : 0x8000 ≤ addr) (h2 : addr ≤ 0xFFFF) :
    rom1.loadb addr = some 0 := by
  have hprg : rom1.prg = List.replicate 16384 0 := rfl
  unfold ROM.loadb
  by_cases hc : 0xC000 ≤ addr
  · rw [if_pos (show rom1.header.size_prg = 1 ∧ 0xC000 ≤ addr from ⟨rfl, hc⟩),
      if_neg (by omega), hprg, List.getElem?_replicate, if_pos (by omega)]
  · rw [if_neg (show ¬(rom1.header.size_prg = 1 ∧ 0xC000 ≤ addr) from fun h => hc h.2),
      if_neg (by omega), hprg, List.getElem?_replicate, if_pos (by omega)]

/-- Every PRG-range bus read of the all-zero one-bank cartridge yields 0. -/
theorem mem_rom1_loadb {m : Memory} (hm : m.rom = rom1) {addr : Nat}
    (h1 : 0x8000 ≤ addr) (h2 : addr ≤ 0xFFFF) :
    m.loadb addr = some 0 := by
  unfold Memory.loadb
  rw [if_neg (by omega), if_neg (by omega), if_neg (by omega),
    if_neg (by omega), if_neg (by omega), hm]
  exact rom1_loadb h1 h2

/-! ## Claim theorems -/

/-- Claim C1 (code_bug evidence): with `A = 0x10` and CMP-immediate
operand `0x10`, the code leaves A unmodified and sets the Zero flag, but
it CLEARS the Carry flag (`compare` sets carry from `(result & 0x100)
!= 0`, i.e. carry means borrow), while the claim states Carry = 1 on
equality (no borrow ⇒ carry set). -/
theorem cmp_equal_clears_carry :
    (emulate_cycle cpu_c1).toOption.map
      (fun c => (c.regs.a, c.regs.flags &&& CARRY_FLAG, c.regs.flags &&& ZERO_FLAG))
      = some (0x10, 0, 2) := by rfl

/-- Claim C2 (code_bug evidence): executing INX, INY, DEX and DEY from
`X = 5`, `Y = 7` leaves both registers unchanged (the source discards
the `wrapping_add`/`wrapping_sub` result), while the claim states the
register is incremented/decremented modulo 256. -/
theorem inx_iny_dex_dey_discard_result :
    (emulate_cycle cpu_c2_inx).toOption.map (fun c => (c.regs.x, c.regs.y, c.regs.pc))
      = some (5, 7, 1) ∧
    (emulate_cycle cpu_c2_iny).toOption.map (fun c => (c.regs.x, c.regs.y, c.regs.pc))
      = some (5, 7, 1) ∧
    (emulate_cycle cpu_c2_dex).toOption.map (fun c => (c.regs.x, c.regs.y, c.regs.pc))
      = some (5, 7, 1) ∧
    (emulate_cycle cpu_c2_dey).toOption.map (fun c => (c.regs.x, c.regs.y, c.regs.pc))
      = some (5, 7, 1) := by
  exact ⟨rfl, rfl, rfl, rfl⟩

/-- Claim C3 (code_bug evidence): ASL on absolute operand `0x0180`
(instruction bytes `0E 80 01`, with `mem[0x0080] = 0x01` and
`mem[0x0180] = 0x00`) loads its operand byte from `0x0080` — the
low operand byte only, because `AbsoluteWBAddressingMode::load` reads a
single byte at the PC as the address — and stores the shifted result to
`0x0180`: afterwards `mem[0x0180] = 2 = 0x01 << 1` while `mem[0x0080]`
is unchanged.  The claim states both the load and the store use the full
little-endian word `0x0180`, which would have left `mem[0x0180] = 0`. -/
theorem asl_absolute_loads_from_wrong_address :
    (emulate_cycle cpu_c3).toOption.bind (fun c => c.memory.loadb 0x180) = some 2 ∧
    (emulate_cycle cpu_c3).toOption.bind (fun c => c.memory.loadb 0x80) = some 1 ∧
    cpu_c3.memory.loadb 0x180 = some 0 := by
  exact ⟨rfl, rfl, rfl⟩

/-- Claim C9 (code_bug evidence): opcode `0xA4` (LDY zero-page) with
operand address `5` holding `0x42` loads `0x42` into A and leaves Y at
0, because the dispatch table maps `0xA4` (and `0xB4`) to the `lda`
handler.  The claim states the value is loaded into Y (and only Y). -/
theorem opcode_a4_loads_into_a_not_y :
    (emulate_cycle cpu_c9).toOption.map (fun c => (c.regs.a, c.regs.y, c.regs.x))
      = some (0x42, 0, 0) := by rfl

/-- Claim C4 (code_bug evidence): three panic paths the claim rules out.
With a loaded cartridge announcing zero PRG banks (`prg` empty), the bus
read at `0x8000` panics on an out-of-bounds vector index (`none`); the
word read at `0xFFFF` panics on the overflowing `addr + 1` `u16`
addition; and SBC-immediate with `A = 0`, operand `1`, carry clear
panics on the underflowing `result -= val` before reaching its flag
update. -/
theorem prg_read_and_sbc_can_panic :
    Memory.loadb (Memory.from_rom rom0) 0x8000 = none ∧
    Memory.loadw (Memory.from_rom rom1) 0xFFFF = none ∧
    (match emulate_cycle cpu_c4_sbc with
      | .error (.arith _) => true
      | _ => false) = true := by
  refine ⟨rfl, ?_, rfl⟩
  unfold Memory.loadw
  rw [mem_rom1_loadb rfl (by omega) (by omega)]
  rfl

/-- Claim C6: RAM mirroring round-trip — for every bus state, every
`addr < 0x800`, every value and every `k < 4`, storing at `addr` and
loading back at `addr + k*0x800` succeeds and returns the stored
value. -/
theorem ram_mirroring_round_trip (m : Memory) (addr v k : Nat)
    (ha : addr < 0x800) (hk : k < 4) :
    (m.storeb addr v).bind (fun m2 => m2.loadb (addr + k * 0x800)) = some v := by
  have h1 : (0x7ff : Nat) = 2 ^ 11 - 1 := by norm_num
  have h2 : (2 : Nat) ^ 11 = 0x800 := by norm_num
  have hmask1 : addr &&& 0x7ff = addr := by
    rw [h1, Nat.and_pow_two_sub_one_eq_mod, h2]; omega
  have hmask2 : (addr + k * 0x800) &&& 0x7ff = addr := by
    rw [h1, Nat.and_pow_two_sub_one_eq_mod, h2]; omega
  have c1 : addr < 0x2000 := by omega
  have c2 : addr + k * 0x800 < 0x2000 := by omega
  simp only [Memory.storeb, RAM.storeb, Memory.loadb, RAM.loadb, hmask1, hmask2]
  simp [c1, c2, ha]

/-- Claim C6 witness: round trip at `addr = 3`, `v = 7`, `k = 2` on the
freshly built bus. -/
theorem ram_mirroring_round_trip_witness :
    ((Memory.from_rom rom1).storeb 3 7).bind
      (fun m2 => m2.loadb (3 + 2 * 0x800)) = some 7 :=
  ram_mirroring_round_trip (Memory.from_rom rom1) 3 7 2 (by omega) (by omega)

/-- Claim C8: for every bus state and every address in
`0x8000–0xFFFF`, `storeb` succeeds, leaves the whole machine state
unchanged, and every subsequent load returns what it returned before. -/
theorem prg_store_is_discarded (m : Memory) (addr v : Nat)
    (hlo : 0x8000 ≤ addr) (hhi : addr ≤ 0xFFFF) :
    m.storeb addr v = some m ∧
    ∀ a, (m.storeb addr v).bind (fun m2 => m2.loadb a) = m.loadb a := by
  have hs : m.storeb addr v = some m := by
    unfold Memory.storeb
    rw [if_neg (by omega), if_neg (by omega), if_neg (by omega),
      if_neg (by omega), if_neg (by omega)]
  exact ⟨hs, fun a => by rw [hs]; rfl⟩

/-- Claim C8 witness: storing `1` at `0x9000` on the freshly built bus
is a no-op. -/
theorem prg_store_is_discarded_witness :
    (Memory.from_rom rom1).storeb 0x9000 1 = some (Memory.from_rom rom1) ∧
    ∀ a, ((Memory.from_rom rom1).storeb 0x9000 1).bind (fun m2 => m2.loadb a)
      = (Memory.from_rom rom1).loadb a :=
  prg_store_is_discarded (Memory.from_rom rom1) 0x9000 1 (by omega) (by omega)

/-- The little-endian word the all-zero one-bank cartridge maps at the
reset vector is 0. -/
theorem loadw_rom1_reset_vector :
    Memory.loadw (Memory.from_rom rom1) RESET_VECTOR = some 0 := by
  show Memory.loadw (Memory.from_rom rom1) 0xFFFC = some 0
  unfold Memory.loadw
  rw [mem_rom1_loadb rfl (by omega) (by omega)]
  rw [show (Memory.from_rom rom1).loadb (0xFFFC + 1) = some 0 from
    mem_rom1_loadb rfl (by omega) (by omega)]
  rfl

/-- Claim C7 counterexample: on the loaded all-zero one-bank cartridge,
storing `0x34` at `0xFFFC` and `0x12` at `0xFFFD` through the bus and
then calling `reset()` leaves `PC = 0` (the word the cartridge maps at
the vector), not `0x1234` — the claim fails as stated because the bus
discards both stores. -/
theorem reset_after_vector_stores_counterexample :
    ((CPU.new rom1).memory.storeb 0xFFFC 0x34).bind
        (fun m1 => m1.storeb 0xFFFD 0x12) = some (CPU.new rom1).memory ∧
    ((CPU.new rom1).reset).toOption.map (fun c => c.regs.pc) = some 0 ∧
    (0 : Nat) ≠ 0x1234 := by
  refine ⟨rfl, ?_, by decide⟩
  unfold CPU.reset
  rw [show (CPU.new rom1).memory.loadw RESET_VECTOR = some 0 from
    loadw_rom1_reset_vector]
  rfl

/-- Claim C7 as amended: bus stores at `0xFFFC`/`0xFFFD` are silently
discarded, and `reset()` sets the PC to the little-endian word the
cartridge itself maps at the reset vector — `0x1234` results only when
the cartridge image already holds those bytes, not because of the
stores. -/
theorem reset_uses_cartridge_vector (c : CPU) (w : Nat)
    (hw : c.memory.loadw RESET_VECTOR = some w) :
    (c.memory.storeb 0xFFFC 0x34).bind (fun m1 => m1.storeb 0xFFFD 0x12)
      = some c.memory ∧
    c.reset = .ok { c with regs := { c.regs with pc := w } } := by
  refine ⟨rfl, ?_⟩
  unfold CPU.reset
  rw [hw]

/-- Claim C7 amended-claim witness: instantiated on the loaded all-zero
one-bank cartridge, whose vector word is 0. -/
theorem reset_uses_cartridge_vector_witness :
    ((CPU.new rom1).memory.storeb 0xFFFC 0x34).bind
        (fun m1 => m1.storeb 0xFFFD 0x12) = some (CPU.new rom1).memory ∧
    (CPU.new rom1).reset = .ok
      { CPU.new rom1 with regs := { (CPU.new rom1).regs with pc := 0 } } :=
  reset_uses_cartridge_vector (CPU.new rom1) 0 loadw_rom1_reset_vector

/-- Claim C5 counterexample: feeding opcode `0xFF` at `PC = 0` makes
`emulate_cycle` fail with the illegal-opcode panic, but the CPU state at
the moment of the panic has `PC = 1`, not the pre-fetch `PC = 0`: the
opcode fetch (`loadb_move`) has already advanced the PC, so the
Registers are not exactly as they were before the fetch. -/
theorem illegal_opcode_pc_already_advanced :
    (match emulate_cycle cpu_c5 with
      | .error (.illegalOpcode op c) => some (op, c.regs.pc)
      | _ => none) = some (0xFF, 1) ∧
    cpu_c5.regs.pc = 0 ∧ (1 : Nat) ≠ 0 := by
  exact ⟨rfl, rfl, by decide⟩

set_option maxHeartbeats 2000000 in
/-- Claim C5 as amended: for every CPU state whose next opcode byte has
no table entry, `emulate_cycle` fails with `IllegalOpcode` carrying that
opcode, and the state at the panic has A, X, Y, S, the flags and the
memory unchanged, with the PC advanced by exactly one (past the fetched
opcode byte); no other part of an instruction is applied. -/
theorem illegal_opcode_halts_after_fetch (c : CPU) (op : Nat)
    (hop : c.memory.loadb c.regs.pc = some op)
    (hpc : c.regs.pc + 1 ≤ 0xFFFF)
    (hentry : hasEntry op = false) :
    emulate_cycle c = .error (.illegalOpcode op
      { c with regs := { c.regs with pc := c.regs.pc + 1 } }) := by
  unfold emulate_cycle CPU.loadb_move
  simp only [hop, hpc, if_true]
  unfold execOpcode
  split
  all_goals first
    | rfl
    | exact absurd hentry (by decide)

/-- Claim C5 amended-claim witness: the concrete `0xFF` fixture. -/
theorem illegal_opcode_halts_after_fetch_witness :
    emulate_cycle cpu_c5 = .error (.illegalOpcode 0xFF
      { cpu_c5 with regs := { cpu_c5.regs with pc := cpu_c5.regs.pc + 1 } }) :=
  illegal_opcode_halts_after_fetch cpu_c5 0xFF rfl (by decide) (by decide)

/-- A successful `loadb_move` leaves the flags untouched. -/
theorem loadb_move_flags {c : CPU} {val : Nat} {c1 : CPU}
    (h : c.loadb_move = .ok (val, c1)) : c1.regs.flags = c.regs.flags := by
  unfold CPU.loadb_move at h
  (repeat' split at h) <;>
  first
    | exact Except.noConfusion h
    | (injection h with h1; injection h1 with h2 h3; subst h3; rfl)

/-- A successful `loadw_move` leaves the flags untouched. -/
theorem loadw_move_flags {c : CPU} {val : Nat} {c1 : CPU}
    (h : c.loadw_move = .ok (val, c1)) : c1.regs.flags = c.regs.flags := by
  unfold CPU.loadw_move at h
  (repeat' split at h) <;>
  first
    | exact Except.noConfusion h
    | (injection h with h1; injection h1 with h2 h3; subst h3; rfl)

/-- A successful addressing-mode load leaves the flags untouched. -/
theorem am_load_flags {am : AM} {c : CPU} {v : Nat} {c' : CPU}
    (h : am.load c = .ok (v, c')) : c'.regs.flags = c.regs.flags := by
  cases am <;>
    simp only [AM.load] at h <;>
    (repeat' split at h) <;>
    first
      | exact Except.noConfusion h
      | exact loadb_move_flags h
      | (injection h with h1; injection h1 with h2 h3; subst h3;
         first
           | rfl
           | exact loadb_move_flags (by assumption)
           | exact loadw_move_flags (by assumption))

/-- A successful addressing-mode store leaves the flags untouched. -/
theorem am_store_flags {am : AM} {c : CPU} {v : Nat} {c' : CPU}
    (h : am.store c v = .ok c') : c'.regs.flags = c.regs.flags := by
  cases am <;>
    simp only [AM.store] at h <;>
    (repeat' split at h) <;>
    first
      | exact Except.noConfusion h
      | (injection h with h1; subst h1;
         first
           | rfl
           | (have h2 := loadb_move_flags (c := c) (by assumption); exact h2)
           | (have h2 := loadw_move_flags (c := c) (by assumption); exact h2))

/-- `set_flag` with the Carry or Zero bit keeps the flags below 4. -/
theorem set_flag_lt {c : CPU} {f : Nat} (hf : f = CARRY_FLAG ∨ f = ZERO_FLAG)
    (b : Bool) (h : c.regs.flags < 4) : (c.set_flag f b).regs.flags < 4 := by
  unfold CPU.set_flag
  cases b
  · simpa using Nat.lt_of_le_of_lt Nat.and_le_left h
  · have hf4 : f < 4 := by rcases hf with h1 | h1 <;> simp [h1, CARRY_FLAG, ZERO_FLAG]
    simpa using Nat.or_lt_two_pow (n := 2) h hf4

/-- `compare` only writes the Carry and Zero bits. -/
theorem compare_flags_lt {c : CPU} {a b : Nat} (h : c.regs.flags < 4) :
    (compare c a b).regs.flags < 4 := by
  unfold compare
  exact set_flag_lt (Or.inr rfl) _ (set_flag_lt (Or.inl rfl) _ h)

/-- Flag preservation for the load-only register operations. -/
theorem ora_flags {am : AM} {c c' : CPU} (h : ora am c = .ok c') :
    c'.regs.flags = c.regs.flags := by
  unfold ora at h
  (repeat' split at h) <;>
  first
    | exact Except.noConfusion h
    | (injection h with h1; subst h1;
       have h2 := am_load_flags (c := c) (by assumption); exact h2)

/-- Flag preservation for `eor`. -/
theorem eor_flags {am : AM} {c c' : CPU} (h : eor am c = .ok c') :
    c'.regs.flags = c.regs.flags := by
  unfold eor at h
  (repeat' split at h) <;>
  first
    | exact Except.noConfusion h
    | (injection h with h1; subst h1;
       have h2 := am_load_flags (c := c) (by assumption); exact h2)

/-- Flag preservation for `and`. -/
theorem and_flags {am : AM} {c c' : CPU} (h : and am c = .ok c') :
    c'.regs.flags = c.regs.flags := by
  unfold and at h
  (repeat' split at h) <;>
  first
    | exact Except.noConfusion h
    | (injection h with h1; subst h1;
       have h2 := am_load_flags (c := c) (by assumption); exact h2)

/-- Flag preservation for `lda`. -/
theorem lda_flags {am : AM} {c c' : CPU} (h : lda am c = .ok c') :
    c'.regs.flags = c.regs.flags := by
  unfold lda at h
  (repeat' split at h) <;>
  first
    | exact Except.noConfusion h
    | (injection h with h1; subst h1;
       have h2 := am_load_flags (c := c) (by assumption); exact h2)

/-- Flag preservation for `ldx`. -/
theorem ldx_flags {am : AM} {c c' : CPU} (h : ldx am c = .ok c') :
    c'.regs.flags = c.regs.flags := by
  unfold ldx at h
  (repeat' split at h) <;>
  first
    | exact Except.noConfusion h
    | (injection h with h1; subst h1;
       have h2 := am_load_flags (c := c) (by assumption); exact h2)

/-- Flag preservation for `ldy`. -/
theorem ldy_flags {am : AM} {c c' : CPU} (h : ldy am c = .ok c') :
    c'.regs.flags = c.regs.flags := by
  unfold ldy at h
  (repeat' split at h) <;>
  first
    | exact Except.noConfusion h
    | (injection h with h1; subst h1;
       have h2 := am_load_flags (c := c) (by assumption); exact h2)

/-- Flag preservation for `sta`. -/
theorem sta_flags {am : AM} {c c' : CPU} (h : sta am c = .ok c') :
    c'.regs.flags = c.regs.flags := by
  unfold sta at h
  exact am_store_flags h

/-- Flag preservation for `stx`. -/
theorem stx_flags {am : AM} {c c' : CPU} (h : stx am c = .ok c') :
    c'.regs.flags = c.regs.flags := by
  unfold stx at h
  exact am_store_flags h

/-- Flag preservation for `sty`. -/
theorem sty_flags {am : AM} {c c' : CPU} (h : sty am c = .ok c') :
    c'.regs.flags = c.regs.flags := by
  unfold sty at h
  exact am_store_flags h

/-- Flag preservation for `nop`. -/
theorem nop_flags {c c' : CPU} (h : nop c = .ok c') :
    c'.regs.flags = c.regs.flags := by
  injection h with h1; subst h1; rfl

/-- Flag preservation for `jmp`. -/
theorem jmp_flags {c c' : CPU} (h : jmp c = .ok c') :
    c'.regs.flags = c.regs.flags := by
  unfold jmp at h
  (repeat' split at h) <;>
  first
    | exact Except.noConfusion h
    | (injection h with h1; subst h1;
       have h2 := loadw_move_flags (c := c) (by assumption); exact h2)

/-- Flag preservation for `dex`. -/
theorem dex_flags {c c' : CPU} (h : dex c = .ok c') :
    c'.regs.flags = c.regs.flags := by
  injection h with h1; subst h1; rfl

/-- Flag preservation for `dey`. -/
theorem dey_flags {c c' : CPU} (h : dey c = .ok c') :
    c'.regs.flags = c.regs.flags := by
  injection h with h1; subst h1; rfl

/-- Flag preservation for `inx`. -/
theorem inx_flags {c c' : CPU} (h : inx c = .ok c') :
    c'.regs.flags = c.regs.flags := by
  injection h with h1; subst h1; rfl

/-- Flag preservation for `iny`. -/
theorem iny_flags {c c' : CPU} (h : iny c = .ok c') :
    c'.regs.flags = c.regs.flags := by
  injection h with h1; subst h1; rfl

/-- Flag preservation for `bpl`. -/
theorem bpl_flags {c c' : CPU} (h : bpl c = .ok c') :
    c'.regs.flags = c.regs.flags := by
  unfold bpl at h
  (repeat' split at h) <;>
  first
    | exact Except.noConfusion h
    | (injection h with h1; subst h1;
       have h2 := am_load_flags (c := c) (by assumption); exact h2)

/-- Flag preservation for `bmi`. -/
theorem bmi_flags {c c' : CPU} (h : bmi c = .ok c') :
    c'.regs.flags = c.regs.flags := by
  unfold bmi at h
  (repeat' split at h) <;>
  first
    | exact Except.noConfusion h
    | (injection h with h1; subst h1;
       have h2 := am_load_flags (c := c) (by assumption); exact h2)

/-- Flag preservation for `bvc`. -/
theorem bvc_flags {c c' : CPU} (h : bvc c = .ok c') :
    c'.regs.flags = c.regs.flags := by
  unfold bvc at h
  (repeat' split at h) <;>
  first
    | exact Except.noConfusion h
    | (injection h with h1; subst h1;
       have h2 := am_load_flags (c := c) (by assumption); exact h2)

/-- Flag preservation for `bvs`. -/
theorem bvs_flags {c c' : CPU} (h : bvs c = .ok c') :
    c'.regs.flags = c.regs.flags := by
  unfold bvs at h
  (repeat' split at h) <;>
  first
    | exact Except.noConfusion h
    | (injection h with h1; subst h1;
       have h2 := am_load_flags (c := c) (by assumption); exact h2)

/-- Flag preservation for `bcc`. -/
theorem bcc_flags {c c' : CPU} (h : bcc c = .ok c') :
    c'.regs.flags = c.regs.flags := by
  unfold bcc at h
  (repeat' split at h) <;>
  first
    | exact Except.noConfusion h
    | (injection h with h1; subst h1;
       have h2 := am_load_flags (c := c) (by assumption); exact h2)

/-- Flag preservation for `bcs`. -/
theorem bcs_flags {c c' : CPU} (h : bcs c = .ok c') :
    c'.regs.flags = c.regs.flags := by
  unfold bcs at h
  (repeat' split at h) <;>
  first
    | exact Except.noConfusion h
    | (injection h with h1; subst h1;
       have h2 := am_load_flags (c := c) (by assumption); exact h2)

/-- Flag preservation for `bne`. -/
theorem bne_flags {c c' : CPU} (h : bne c = .ok c') :
    c'.regs.flags = c.regs.flags := by
  unfold bne at h
  (repeat' split at h) <;>
  first
    | exact Except.noConfusion h
    | (injection h with h1; subst h1;
       have h2 := am_load_flags (c := c) (by assumption); exact h2)

/-- Flag preservation for `beq`. -/
theorem beq_flags {c c' : CPU} (h : beq c = .ok c') :
    c'.regs.flags = c.regs.flags := by
  unfold beq at h
  (repeat' split at h) <;>
  first
    | exact Except.noConfusion h
    | (injection h with h1; subst h1;
       have h2 := am_load_flags (c := c) (by assumption); exact h2)

/-- `adc` keeps the flags below 4 (it only writes the Carry bit). -/
theorem adc_flags_lt {am : AM} {c c' : CPU} (h : adc am c = .ok c')
    (hf : c.regs.flags < 4) : c'.regs.flags < 4 := by
  unfold adc at h
  (repeat' split at h) <;>
  first
    | exact Except.noConfusion h
    | (injection h with h1; subst h1;
       have h2 := am_load_flags (c := c) (by assumption);
       exact set_flag_lt (Or.inl rfl) _ (lt_of_eq_of_lt h2 hf))

/-- `sbc` keeps the flags below 4 (it only writes the Carry bit). -/
theorem sbc_flags_lt {am : AM} {c c' : CPU} (h : sbc am c = .ok c')
    (hf : c.regs.flags < 4) : c'.regs.flags < 4 := by
  unfold sbc at h
  dsimp only at h
  (repeat' split at h) <;>
  first
    | exact Except.noConfusion h
    | (injection h with h1; subst h1;
       have h2 := am_load_flags (c := c) (by assumption);
       exact set_flag_lt (Or.inl rfl) _ (lt_of_eq_of_lt h2 hf))

/-- `cmp` keeps the flags below 4. -/
theorem cmp_flags_lt {am : AM} {c c' : CPU} (h : cmp am c = .ok c')
    (hf : c.regs.flags < 4) : c'.regs.flags < 4 := by
  unfold cmp at h
  (repeat' split at h) <;>
  first
    | exact Except.noConfusion h
    | (injection h with h1; subst h1;
       have h2 := am_load_flags (c := c) (by assumption);
       exact compare_flags_lt (lt_of_eq_of_lt h2 hf))

/-- `cpx` keeps the flags below 4. -/
theorem cpx_flags_lt {am : AM} {c c' : CPU} (h : cpx am c = .ok c')
    (hf : c.regs.flags < 4) : c'.regs.flags < 4 := by
  unfold cpx at h
  (repeat' split at h) <;>
  first
    | exact Except.noConfusion h
    | (injection h with h1; subst h1;
       have h2 := am_load_flags (c := c) (by assumption);
       exact compare_flags_lt (lt_of_eq_of_lt h2 hf))

/-- `cpy` keeps the flags below 4. -/
theorem cpy_flags_lt {am : AM} {c c' : CPU} (h : cpy am c = .ok c')
    (hf : c.regs.flags < 4) : c'.regs.flags < 4 := by
  unfold cpy at h
  (repeat' split at h) <;>
  first
    | exact Except.noConfusion h
    | (injection h with h1; subst h1;
       have h2 := am_load_flags (c := c) (by assumption);
       exact compare_flags_lt (lt_of_eq_of_lt h2 hf))

/-- `asl` keeps the flags below 4 (it only writes the Carry bit). -/
theorem asl_flags_lt {am : AM} {c c' : CPU} (h : asl am c = .ok c')
    (hf : c.regs.flags < 4) : c'.regs.flags < 4 := by
  unfold asl at h
  (repeat' split at h) <;>
  first
    | exact Except.noConfusion h
    | (have h2 := am_load_flags (c := c) (by assumption);
       have h3 := am_store_flags h;
       exact lt_of_eq_of_lt h3 (set_flag_lt (Or.inl rfl) _ (lt_of_eq_of_lt h2 hf)))

/-- `rol` keeps the flags below 4. -/
theorem rol_flags_lt {am : AM} {c c' : CPU} (h : rol am c = .ok c')
    (hf : c.regs.flags < 4) : c'.regs.flags < 4 := by
  unfold rol at h
  (repeat' split at h) <;>
  first
    | exact Except.noConfusion h
    | (have h2 := am_load_flags (c := c) (by assumption);
       have h3 := am_store_flags h;
       exact lt_of_eq_of_lt h3 (set_flag_lt (Or.inl rfl) _ (lt_of_eq_of_lt h2 hf)))

/-- `lsr` keeps the flags below 4. -/
theorem lsr_flags_lt {am : AM} {c c' : CPU} (h : lsr am c = .ok c')
    (hf : c.regs.flags < 4) : c'.regs.flags < 4 := by
  unfold lsr at h
  (repeat' split at h) <;>
  first
    | exact Except.noConfusion h
    | (have h2 := am_load_flags (c := c) (by assumption);
       have h3 := am_store_flags h;
       exact lt_of_eq_of_lt h3 (set_flag_lt (Or.inl rfl) _ (lt_of_eq_of_lt h2 hf)))

/-- `ror` keeps the flags below 4. -/
theorem ror_flags_lt {am : AM} {c c' : CPU} (h : ror am c = .ok c')
    (hf : c.regs.flags < 4) : c'.regs.flags < 4 := by
  unfold ror at h
  (repeat' split at h) <;>
  first
    | exact Except.noConfusion h
    | (have h2 := am_load_flags (c := c) (by assumption);
       have h3 := am_store_flags h;
       exact lt_of_eq_of_lt h3 (set_flag_lt (Or.inl rfl) _ (lt_of_eq_of_lt h2 hf)))

set_option maxHeartbeats 2000000 in
/-- Every successfully dispatched instruction keeps the flags below 4:
no operation ever writes a bit other than Carry or Zero. -/
theorem execOpcode_flags_lt {op : Nat} {c c' : CPU}
    (h : execOpcode op c = .ok c') (hf : c.regs.flags < 4) :
    c'.regs.flags < 4 := by
  unfold execOpcode at h
  split at h
  all_goals first
    | exact Except.noConfusion h
    | exact lt_of_eq_of_lt (ora_flags h) hf
    | exact lt_of_eq_of_lt (eor_flags h) hf
    | exact lt_of_eq_of_lt (and_flags h) hf
    | exact lt_of_eq_of_lt (lda_flags h) hf
    | exact lt_of_eq_of_lt (ldx_flags h) hf
    | exact lt_of_eq_of_lt (ldy_flags h) hf
    | exact lt_of_eq_of_lt (sta_flags h) hf
    | exact lt_of_eq_of_lt (stx_flags h) hf
    | exact lt_of_eq_of_lt (sty_flags h) hf
    | exact lt_of_eq_of_lt (nop_flags h) hf
    | exact lt_of_eq_of_lt (jmp_flags h) hf
    | exact lt_of_eq_of_lt (dex_flags h) hf
    | exact lt_of_eq_of_lt (dey_flags h) hf
    | exact lt_of_eq_of_lt (inx_flags h) hf
    | exact lt_of_eq_of_lt (iny_flags h) hf
    | exact lt_of_eq_of_lt (bpl_flags h) hf
    | exact lt_of_eq_of_lt (bmi_flags h) hf
    | exact lt_of_eq_of_lt (bvc_flags h) hf
    | exact lt_of_eq_of_lt (bvs_flags h) hf
    | exact lt_of_eq_of_lt (bcc_flags h) hf
    | exact lt_of_eq_of_lt (bcs_flags h) hf
    | exact lt_of_eq_of_lt (bne_flags h) hf
    | exact lt_of_eq_of_lt (beq_flags h) hf
    | exact adc_flags_lt h hf
    | exact sbc_flags_lt h hf
    | exact cmp_flags_lt h hf
    | exact cpx_flags_lt h hf
    | exact cpy_flags_lt h hf
    | exact asl_flags_lt h hf
    | exact rol_flags_lt h hf
    | exact lsr_flags_lt h hf
    | exact ror_flags_lt h hf

/-- One successful `emulate_cycle` keeps the flags below 4. -/
theorem emulate_cycle_flags_lt {c c' : CPU} (h : emulate_cycle c = .ok c')
    (hf : c.regs.flags < 4) : c'.regs.flags < 4 := by
  unfold emulate_cycle at h
  (repeat' split at h) <;>
  first
    | exact Except.noConfusion h
    | (have h2 := loadb_move_flags (c := c) (by assumption);
       exact execOpcode_flags_lt h (lt_of_eq_of_lt h2 hf))

/-- `reset` leaves the flags untouched. -/
theorem reset_flags {c c' : CPU} (h : c.reset = .ok c') :
    c'.regs.flags = c.regs.flags := by
  unfold CPU.reset at h
  (repeat' split at h) <;>
  first
    | exact Except.noConfusion h
    | (injection h with h1; subst h1; rfl)

/-- In every reachable state only the Carry and Zero bits can be set. -/
theorem reachable_flags_lt {c : CPU} (h : Reachable c) : c.regs.flags < 4 := by
  induction h with
  | new rom => exact Nat.succ_le_succ (Nat.zero_le 3)
  | reset h1 h2 ih => exact lt_of_eq_of_lt (reset_flags h2) ih
  | step h1 h2 ih => exact emulate_cycle_flags_lt h2 ih

/-- A flags value below 4 has the Negative bit clear. -/
theorem neg_bit_zero {f : Nat} (h : f < 4) : f &&& NEG_FLAG = 0 := by
  interval_cases f <;> rfl

/-- A flags value below 4 has the Overflow bit clear. -/
theorem ovf_bit_zero {f : Nat} (h : f < 4) : f &&& OVERFLOW_FLAG = 0 := by
  interval_cases f <;> rfl

/-- A flags value below 4 has all six non-Carry, non-Zero bits clear. -/
theorem hi_bits_zero {f : Nat} (h : f < 4) : f &&& 0xFC = 0 := by
  interval_cases f <;> rfl

/-- When the flags are below 4, BMI consumes its offset and never
branches. -/
theorem bmi_not_taken {c : CPU} (hf : c.regs.flags < 4) :
    bmi c = branch_not_taken c := by
  unfold bmi branch_not_taken
  cases hL : AM.load .immediate c with
  | error p => rfl
  | ok pr =>
    obtain ⟨off, c1⟩ := pr
    simp only [hL]
    have hbit : c1.regs.flags &&& NEG_FLAG = 0 :=
      neg_bit_zero (lt_of_eq_of_lt (am_load_flags hL) hf)
    rw [if_neg (show ¬c1.regs.flags &&& NEG_FLAG ≠ 0 from fun hne => hne hbit)]

/-- When the flags are below 4, BVS consumes its offset and never
branches. -/
theorem bvs_not_taken {c : CPU} (hf : c.regs.flags < 4) :
    bvs c = branch_not_taken c := by
  unfold bvs branch_not_taken
  cases hL : AM.load .immediate c with
  | error p => rfl
  | ok pr =>
    obtain ⟨off, c1⟩ := pr
    simp only [hL]
    have hbit : c1.regs.flags &&& OVERFLOW_FLAG = 0 :=
      ovf_bit_zero (lt_of_eq_of_lt (am_load_flags hL) hf)
    rw [if_neg (show ¬c1.regs.flags &&& OVERFLOW_FLAG ≠ 0 from fun hne => hne hbit)]

/-- When the flags are below 4, BPL always takes its branch. -/
theorem bpl_taken {c : CPU} (hf : c.regs.flags < 4) :
    bpl c = branch_taken c := by
  unfold bpl branch_taken
  cases hL : AM.load .immediate c with
  | error p => rfl
  | ok pr =>
    obtain ⟨off, c1⟩ := pr
    simp only [hL]
    have hbit : c1.regs.flags &&& NEG_FLAG = 0 :=
      neg_bit_zero (lt_of_eq_of_lt (am_load_flags hL) hf)
    rw [if_pos hbit]

/-- When the flags are below 4, BVC always takes its branch. -/
theorem bvc_taken {c : CPU} (hf : c.regs.flags < 4) :
    bvc c = branch_taken c := by
  unfold bvc branch_taken
  cases hL : AM.load .immediate c with
  | error p => rfl
  | ok pr =>
    obtain ⟨off, c1⟩ := pr
    simp only [hL]
    have hbit : c1.regs.flags &&& OVERFLOW_FLAG = 0 :=
      ovf_bit_zero (lt_of_eq_of_lt (am_load_flags hL) hf)
    rw [if_pos hbit]

/-- Claim C10: in every CPU state reachable from construction via
`reset()` and `emulate_cycle()`, the Negative, Overflow, Decimal,
IRQ-disable and the two unused flag bits are all 0 (`flags & 0xFC = 0`:
only Carry and Zero are ever written), and consequently BMI and BVS
never take their branch while BPL and BVC always take theirs. -/
theorem reachable_flags_invariant (c : CPU) (h : Reachable c) :
    c.regs.flags &&& 0xFC = 0 ∧
    bmi c = branch_not_taken c ∧
    bvs c = branch_not_taken c ∧
    bpl c = branch_taken c ∧
    bvc c = branch_taken c :=
  have hf := reachable_flags_lt h
  ⟨hi_bits_zero hf, bmi_not_taken hf, bvs_not_taken hf, bpl_taken hf,
    bvc_taken hf⟩

/-- Claim C10 witness: the invariant instantiated at the freshly
constructed CPU on the all-zero one-bank cartridge. -/
theorem reachable_flags_invariant_witness :
    (CPU.new rom1).regs.flags &&& 0xFC = 0 ∧
    bmi (CPU.new rom1) = branch_not_taken (CPU.new rom1) ∧
    bvs (CPU.new rom1) = branch_not_taken (CPU.new rom1) ∧
    bpl (CPU.new rom1) = branch_taken (CPU.new rom1) ∧
    bvc (CPU.new rom1) = branch_taken (CPU.new rom1) :=
  reachable_flags_invariant (CPU.new rom1) (Reachable.new rom1)

end Nes
